import Mathlib

set_option maxRecDepth 20000

/- Verification development for the homework-status polling bot
   (homework.py and exceptions.py): a shallow embedding of the program's
   data and functions, followed by theorems about the embedded code. -/

namespace HomeworkBot

mutual

/-- Python values as the program manipulates them: JSON-decoded payloads
and the scalar loop state. -/
inductive PyVal where
  | none
  | bool (b : Bool)
  | int (n : Int)
  | str (s : String)
  | list (xs : PyList)
  | dict (entries : PyDict)
deriving DecidableEq

/-- Python list of values. -/
inductive PyList where
  | nil
  | cons (v : PyVal) (tl : PyList)
deriving DecidableEq

/-- Python dict with string keys, in insertion order; keys are unique in
real Python dicts, and lookups below take the first match. -/
inductive PyDict where
  | nil
  | cons (k : String) (v : PyVal) (tl : PyDict)
deriving DecidableEq

end

/-- Lookup of a key in a dict, as `key in d` / `d[key]` resolve it. -/
def PyDict.lookup : PyDict → String → Option PyVal
  | .nil, _ => Option.none
  | .cons k v tl, key => if k = key then some v else tl.lookup key

/-- Python `d.get(key, default)`. -/
def PyDict.getD (d : PyDict) (key : String) (dfl : PyVal) : PyVal :=
  (d.lookup key).getD dfl

/-- Python `d.get(key)`, whose default is `None`. -/
def PyDict.get (d : PyDict) (key : String) : PyVal :=
  d.getD key .none

/-- Emptiness test on an embedded Python list. -/
def PyList.isEmpty : PyList → Bool
  | .nil => true
  | .cons _ _ => false

/-- Python truthiness (`bool(v)`), as used by `if not value:` checks. -/
def pyTruthy : PyVal → Bool
  | .none => false
  | .bool b => b
  | .int n => decide (n ≠ 0)
  | .str s => decide (s ≠ "")
  | .list xs => !xs.isEmpty
  | .dict .nil => false
  | .dict (.cons _ _ _) => true

/-- Python type name of a value, as it appears in error messages. -/
def pyTypeName : PyVal → String
  | .none => "NoneType"
  | .bool _ => "bool"
  | .int _ => "int"
  | .str _ => "str"
  | .list _ => "list"
  | .dict _ => "dict"

/-- Hashability: lists and dicts are unhashable, so using them as a key in
an `in` test raises a `TypeError` in Python. -/
def pyHashable : PyVal → Bool
  | .list _ => false
  | .dict _ => false
  | _ => true

/-- Single-quote character, used by Python `repr` of strings. -/
def pyQuoteChar : Char := Char.ofNat 39

/-- Wrap a string in single quotes, as Python `repr` renders strings. -/
def pyQuote (s : String) : String :=
  pyQuoteChar.toString ++ s ++ pyQuoteChar.toString

mutual

/-- Python `repr` of a value (string escaping inside quotes is elided; the
program only ever formats plain token-like strings this way). -/
def pyRepr : PyVal → String
  | .none => "None"
  | .bool true => "True"
  | .bool false => "False"
  | .int n => toString n
  | .str s => pyQuote s
  | .list xs => "[" ++ pyReprList xs ++ "]"
  | .dict es => "\x7b" ++ pyReprDict es ++ "\x7d"

/-- Comma-joined reprs of a list's elements. -/
def pyReprList : PyList → String
  | .nil => ""
  | .cons v .nil => pyRepr v
  | .cons v tl => pyRepr v ++ ", " ++ pyReprList tl

/-- Comma-joined `key: value` reprs of a dict's entries. -/
def pyReprDict : PyDict → String
  | .nil => ""
  | .cons k v .nil => pyQuote k ++ ": " ++ pyRepr v
  | .cons k v tl => pyQuote k ++ ": " ++ pyRepr v ++ ", " ++ pyReprDict tl

end

/-- Python `str` of a value, as an f-string interpolates it. -/
def pyStr : PyVal → String
  | .str s => s
  | .list xs => pyRepr (.list xs)
  | .dict es => pyRepr (.dict es)
  | .none => "None"
  | .bool true => "True"
  | .bool false => "False"
  | .int n => toString n

/-- Exceptions the program raises or handles inside a polling cycle.
`connectionError` keeps the wrapped cause (`raise ... from error`);
`keyError` keeps the key object, which Python quotes in `str(e)`. -/
inductive PyErr where
  | typeError (msg : String)
  | keyError (key : String)
  | valueError (msg : String)
  | attributeError (msg : String)
  | connectionError (msg : String) (cause : String)
  | invalidResponseCodeError (msg : String)
deriving DecidableEq

/-- Python `str(error)`, used by the loop for formatting and deduplication.
For `KeyError` Python renders the repr of the key, hence the quotes. -/
def strOfErr : PyErr → String
  | .typeError m => m
  | .keyError k => pyQuote k
  | .valueError m => m
  | .attributeError m => m
  | .connectionError m _ => m
  | .invalidResponseCodeError m => m

/-- Environment as read by `os.getenv`: each variable is absent or a
string (possibly empty). -/
structure Env where
  practicumToken : Option String
  telegramToken : Option String
  telegramChatId : Option String
deriving DecidableEq

/-- Truthiness of an `os.getenv` result: `None` and the empty string are
falsy. -/
def optTruthy : Option String → Bool
  | Option.none => false
  | some s => decide (s ≠ "")

/-- Table built by `check_tokens`: variable names paired with their values. -/
def tokenTable (env : Env) : List (String × Option String) :=
  [("PRACTICUM_TOKEN", env.practicumToken),
   ("TELEGRAM_TOKEN", env.telegramToken),
   ("TELEGRAM_CHAT_ID", env.telegramChatId)]

/-- Comprehension `[name for name, value in tokens.items() if not value]`. -/
def missingTokens (env : Env) : List String :=
  ((tokenTable env).filter (fun p => optTruthy p.2 = false)).map Prod.fst

/-- Errors that can end the program at startup. `systemExit` models
`sys.exit(...)`; `missingEnvironmentVariableError` models the class defined
in exceptions.py. -/
inductive StartupError where
  | systemExit (message : String)
  | missingEnvironmentVariableError (message : String) (missing : List String)
deriving DecidableEq

/-- Constructor of `MissingEnvironmentVariableError` from exceptions.py: its
message enumerates the missing names with `", ".join(missing)`. -/
def mkMissingEnvironmentVariableError (missing : List String) : StartupError :=
  .missingEnvironmentVariableError
    ("Отсутствуют обязательные переменные окружения: "
      ++ String.intercalate ", " missing)
    missing

/-- Severities the program logs at. -/
inductive LogLevel where
  | debug
  | info
  | error
  | critical
deriving DecidableEq

/-- One emitted log line. -/
structure LogLine where
  level : LogLevel
  message : String
deriving DecidableEq

/-- Translation of `check_tokens`: collect every falsy variable; if any is
missing, log a critical line enumerating them all and stop the program via
`sys.exit` with a fixed message. Returns the emitted log lines alongside
the outcome. -/
def check_tokens (env : Env) : List LogLine × Except StartupError Unit :=
  match missingTokens env with
  | [] => ([], .ok ())
  | missing =>
    ([⟨.critical,
        "Отсутствуют обязательные переменные окружения: "
          ++ String.intercalate ", " missing⟩],
     .error (.systemExit "Программа принудительно остановлена."))

/-- Translation of `send_message`: the Telegram call's outcome is an input
(`.ok ()` when the transport delivers, `.error e` when it raises); any
exception is caught, logged and turned into `false`; a delivered message is
logged at debug severity and yields `true`. -/
def send_message (message : String) (delivery : Except String Unit) :
    Bool × List LogLine :=
  match delivery with
  | .error err => (false, [⟨.error, "Ошибка при отправке сообщения: " ++ err⟩])
  | .ok _ => (true, [⟨.debug, "Сообщение отправлено: " ++ message⟩])

/-- Decidable equality for `Except`, needed to compare embedded outcomes. -/
instance exceptDecEq {ε α : Type} [DecidableEq ε] [DecidableEq α] :
    DecidableEq (Except ε α) := fun a b =>
  match a, b with
  | .ok x, .ok y =>
    if h : x = y then .isTrue (by rw [h])
    else .isFalse (fun hc => h (Except.ok.inj hc))
  | .ok _, .error _ => .isFalse (fun hc => Except.noConfusion hc)
  | .error _, .ok _ => .isFalse (fun hc => Except.noConfusion hc)
  | .error x, .error y =>
    if h : x = y then .isTrue (by rw [h])
    else .isFalse (fun hc => h (Except.error.inj hc))

/-- Behaviour of the HTTP transport on one `requests.get` call: either the
library raises a `RequestException`, or an HTTP response arrives with a
status code, reason phrase, body text, and the result of `.json()` on it. -/
inductive Transport where
  | requestException (err : String)
  | httpResponse (statusCode : Int) (reason : String) (text : String)
      (json : Except PyErr PyVal)
deriving DecidableEq

/-- Fixed endpoint URL from homework.py. -/
def ENDPOINT : String :=
  "https://practicum.yandex.ru/api/user_api/homework_statuses/"

/-- Fixed sleep between polling cycles, in seconds. -/
def RETRY_PERIOD : Nat := 600

/-- Embedding of an `os.getenv` result into a Python value, as an f-string
sees it. -/
def optToPy : Option String → PyVal
  | Option.none => .none
  | some s => .str s

/-- Module-level `HEADERS` dict built from the Practicum token. -/
def HEADERS (env : Env) : PyVal :=
  .dict (.cons "Authorization"
    (.str ("OAuth " ++ pyStr (optToPy env.practicumToken))) .nil)

/-- Query parameters `params` of the API request. -/
def requestParams (timestamp : PyVal) : PyVal :=
  .dict (.cons "from_date" timestamp .nil)

/-- Message of the `ConnectionError` raised on a transport failure. -/
def connectionErrorMessage (env : Env) (timestamp : PyVal) (err : String) :
    String :=
  "Ошибка подключения к API: " ++ err ++ ". "
    ++ "URL: " ++ ENDPOINT ++ ", "
    ++ "заголовки: " ++ pyStr (HEADERS env) ++ ", "
    ++ "параметры: " ++ pyStr (requestParams timestamp)

/-- Message of the `InvalidResponseCodeError` raised on a non-200 status. -/
def invalidResponseCodeMessage (statusCode : Int) (reason : String)
    (text : String) : String :=
  "Неверный код ответа API: " ++ toString statusCode ++ ". "
    ++ "Причина: " ++ reason ++ ". "
    ++ "Текст: " ++ text

/-- Translation of `get_api_answer`: a transport-level failure becomes a
`ConnectionError` wrapping the cause; a response with a status other than
200 becomes an `InvalidResponseCodeError`; otherwise the parsed JSON body
is returned (a parse failure propagates). -/
def get_api_answer (env : Env) (timestamp : PyVal) (transport : Transport) :
    Except PyErr PyVal :=
  match transport with
  | .requestException err =>
    .error (.connectionError (connectionErrorMessage env timestamp err) err)
  | .httpResponse statusCode reason text json =>
    if statusCode ≠ 200 then
      .error (.invalidResponseCodeError
        (invalidResponseCodeMessage statusCode reason text))
    else json

/-- Translation of `check_response`: reject a non-dict, a dict lacking
`homeworks`, and a `homeworks` value that is not a list; otherwise return
the `homeworks` list unchanged. -/
def check_response (response : PyVal) : Except PyErr PyList :=
  match response with
  | .dict entries =>
    match entries.lookup "homeworks" with
    | Option.none =>
      .error (.keyError "Отсутствует обязательный ключ homeworks в ответе API")
    | some homeworks =>
      match homeworks with
      | .list xs => .ok xs
      | _ => .error (.typeError "homeworks не является списком")
  | _ => .error (.typeError "Ответ API не является словарем")

/-- Fixed verdict table `HOMEWORK_VERDICTS`. -/
def HOMEWORK_VERDICTS : List (String × String) :=
  [("approved", "Работа проверена: ревьюеру всё понравилось. Ура!"),
   ("reviewing", "Работа взята на проверку ревьюером."),
   ("rejected", "Работа проверена: у ревьюера есть замечания.")]

/-- Membership and lookup for `status in HOMEWORK_VERDICTS`: only a string
equal to one of the keys is a member (hashable non-strings simply fail the
test). -/
def verdictsLookup : PyVal → Option String
  | .str s => HOMEWORK_VERDICTS.lookup s
  | _ => Option.none

/-- Message template returned by `parse_status` on success. -/
def statusMessage (name : String) (verdict : String) : String :=
  "Изменился статус проверки работы \"" ++ name ++ "\". " ++ verdict

/-- Translation of `parse_status`: `.get` both fields (default `None`);
a falsy name raises `KeyError`; a status outside `HOMEWORK_VERDICTS`
raises `ValueError` naming the status (an unhashable status makes the
`in` test itself raise `TypeError`, and a non-dict record makes `.get`
raise `AttributeError`); otherwise the templated message is returned. -/
def parse_status (homework : PyVal) : Except PyErr String :=
  match homework with
  | .dict entries =>
    let homework_name := entries.get "homework_name"
    let status := entries.get "status"
    if pyTruthy homework_name = false then
      .error (.keyError "Отсутствует ключ homework_name")
    else if pyHashable status = false then
      .error (.typeError ("unhashable type: " ++ pyQuote (pyTypeName status)))
    else
      match verdictsLookup status with
      | Option.none =>
        .error (.valueError
          ("Неожиданный статус домашней работы: " ++ pyStr status))
      | some verdict => .ok (statusMessage (pyStr homework_name) verdict)
  | v =>
    .error (.attributeError
      (pyQuote (pyTypeName v) ++ " object has no attribute " ++ pyQuote "get"))

/-- Loop state of `main`: the poll timestamp and the two deduplication
variables. `timestamp` is kept as a Python value because the code assigns
`response.get('current_date', timestamp)` to it without conversion. -/
structure LoopState where
  timestamp : PyVal
  last_error : Option String
  last_status : Option PyVal
deriving DecidableEq

/-- Initial loop state: `int(time.time())` and two `None`s. -/
def initState (t0 : Int) : LoopState :=
  { timestamp := .int t0
    last_error := Option.none
    last_status := Option.none }

/-- External behaviour offered to one polling cycle: the HTTP transport's
reaction and the Telegram delivery outcome for the (at most one) send the
cycle attempts. -/
structure CycleInput where
  transport : Transport
  delivery : Except String Unit
deriving DecidableEq

/-- Observable outcome of one cycle: the message passed to `send_message`
(if any), the message whose delivery was confirmed (if any), and the
seconds slept in the `finally` block. -/
structure CycleOutput where
  attempted : Option String
  delivered : Option String
  sleepSeconds : Nat
deriving DecidableEq

/-- Python subscript `v[key]`: `KeyError` on an absent key, `TypeError`
on a non-dict value. -/
def pyGetItem (v : PyVal) (key : String) : Except PyErr PyVal :=
  match v with
  | .dict es =>
    match es.lookup key with
    | some x => .ok x
    | Option.none => .error (.keyError key)
  | other =>
    .error (.typeError
      (pyQuote (pyTypeName other) ++ " object is not subscriptable"))

/-- Python `v.get(key, dfl)` on a value known to be a dict; in the loop it
is only applied to `response` after `check_response` has accepted it, so
the non-dict branch is unreachable there. -/
def pyValGetD (v : PyVal) (key : String) (dfl : PyVal) : PyVal :=
  match v with
  | .dict es => es.getD key dfl
  | _ => dfl

/-- Failure text formatted by the `except` clause of the loop. -/
def errorMessage (es : String) : String :=
  "Сбой в работе программы: " ++ es

/-- Body of the `try` block of one cycle of `main`, given the cycle's
external behaviour: fetch, validate, take the first record, format it,
dedup-check on its `status`, send. On success it returns the next state
plus the attempted and delivered messages; a raised exception is returned
for the `except` clause. -/
def tryBody (env : Env) (st : LoopState) (inp : CycleInput) :
    Except PyErr (LoopState × Option String × Option String) :=
  match get_api_answer env st.timestamp inp.transport with
  | .error e => .error e
  | .ok response =>
    match check_response response with
    | .error e => .error e
    | .ok .nil => .ok (st, Option.none, Option.none)
    | .ok (.cons homework _) =>
      match parse_status homework with
      | .error e => .error e
      | .ok message =>
        match pyGetItem homework "status" with
        | .error e => .error e
        | .ok hwStatus =>
          if some hwStatus ≠ st.last_status then
            if (send_message message inp.delivery).1 then
              .ok ({ timestamp := pyValGetD response "current_date" st.timestamp
                     last_error := st.last_error
                     last_status := some hwStatus },
                   some message, some message)
            else .ok (st, some message, Option.none)
          else .ok (st, Option.none, Option.none)

/-- One full cycle of `main`'s `while True` body: run the `try` block,
run the `except` clause on a raised exception (format the failure text,
dedup on `str(error)` against `last_error`, send, record on success), and
sleep `RETRY_PERIOD` seconds in `finally`. -/
def mainStep (env : Env) (st : LoopState) (inp : CycleInput) :
    LoopState × CycleOutput :=
  match tryBody env st inp with
  | .ok (st2, attempted, delivered) =>
    (st2, { attempted := attempted
            delivered := delivered
            sleepSeconds := RETRY_PERIOD })
  | .error e =>
    let message := errorMessage (strOfErr e)
    if some (strOfErr e) ≠ st.last_error then
      if (send_message message inp.delivery).1 then
        ({ st with last_error := some (strOfErr e) },
         { attempted := some message
           delivered := some message
           sleepSeconds := RETRY_PERIOD })
      else
        (st, { attempted := some message
               delivered := Option.none
               sleepSeconds := RETRY_PERIOD })
    else
      (st, { attempted := Option.none
             delivered := Option.none
             sleepSeconds := RETRY_PERIOD })

/-- Run of finitely many consecutive cycles. -/
def runCycles (env : Env) :
    LoopState → List CycleInput → LoopState × List CycleOutput
  | st, [] => (st, [])
  | st, inp :: rest =>
    let r := mainStep env st inp
    let rr := runCycles env r.1 rest
    (rr.1, r.2 :: rr.2)

/-- One cycle extended with a ghost observer: the second component records
the text most recently confirmed delivered (by either path), the reference
the specification's message-level deduplication talks about. -/
def stepWithDelivered (env : Env) (s : LoopState × Option String)
    (inp : CycleInput) : (LoopState × Option String) × CycleOutput :=
  let r := mainStep env s.1 inp
  ((r.1,
    match r.2.delivered with
    | some m => some m
    | Option.none => s.2), r.2)

/-- Startup followed by finitely many cycles: `check_tokens` either stops
the program before any cycle runs, or the loop starts from `initState`. -/
def mainRun (env : Env) (t0 : Int) (inputs : List CycleInput) :
    Except StartupError (LoopState × List CycleOutput) :=
  match (check_tokens env).2 with
  | .error e => .error e
  | .ok _ => .ok (runCycles env (initState t0) inputs)

/-- Discriminator for dict values (`isinstance(v, dict)`). -/
def PyVal.isDict : PyVal → Bool
  | .dict _ => true
  | _ => false

/-- Key lookup on a value known to be a dict; `Option.none` otherwise. -/
def pyValLookup (v : PyVal) (key : String) : Option PyVal :=
  match v with
  | .dict es => es.lookup key
  | _ => Option.none

/-- Ghost invariant tying the most recently delivered text to the loop
state: a delivered text is either a failure message, or the status message
of some homework whose verdict-keyed status is exactly the recorded
`last_status`. It holds initially (nothing delivered) and is preserved by
every cycle. -/
def DeliveredInv (st : LoopState) (ld : Option String) : Prop :=
  ∀ d, ld = some d →
    (∃ es, d = errorMessage es) ∨
    (∃ name s verdict, HOMEWORK_VERDICTS.lookup s = some verdict ∧
      st.last_status = some (.str s) ∧ d = statusMessage name verdict)

/-- Environment with all three variables present, for concrete runs. -/
def envOk : Env := ⟨some "practicum-token", some "telegram-token", some "chat-id"⟩

/-- Homework record `hw one`, status `approved`. -/
def hwOne : PyVal :=
  .dict (.cons "homework_name" (.str "hw one")
    (.cons "status" (.str "approved") .nil))

/-- Homework record `hw two`, also status `approved` but a different name,
so its formatted message differs from `hwOne`'s. -/
def hwTwo : PyVal :=
  .dict (.cons "homework_name" (.str "hw two")
    (.cons "status" (.str "approved") .nil))

/-- API response carrying a single homework record and a `current_date`. -/
def respWith (hw : PyVal) : PyVal :=
  .dict (.cons "homeworks" (.list (.cons hw .nil))
    (.cons "current_date" (.int 1000) .nil))

/-- Cycle input: HTTP 200 with the given record, Telegram delivers. -/
def inpWith (hw : PyVal) : CycleInput :=
  ⟨.httpResponse 200 "OK" "body" (.ok (respWith hw)), .ok ()⟩

/-- Formatted message of `hwOne`. -/
def msgOne : String :=
  "Изменился статус проверки работы \"hw one\". Работа проверена: ревьюеру всё понравилось. Ура!"

/-- Formatted message of `hwTwo`. -/
def msgTwo : String :=
  "Изменился статус проверки работы \"hw two\". Работа проверена: ревьюеру всё понравилось. Ура!"

/-- Response with an empty homeworks list. -/
def respEmptyHw : PyVal := .dict (.cons "homeworks" (.list .nil) .nil)

/-- Cycle input delivering the empty-homeworks response over HTTP 200. -/
def inpEmptyHw : CycleInput :=
  ⟨.httpResponse 200 "OK" "body" (.ok respEmptyHw), .ok ()⟩

/-- Cycle input whose HTTP response is a 503. -/
def inpHttp503 : CycleInput :=
  ⟨.httpResponse 503 "Service Unavailable" "busy" (.ok PyVal.none), .ok ()⟩

/-- Error raised by `get_api_answer` on the 503 response. -/
def err503 : PyErr :=
  .invalidResponseCodeError
    (invalidResponseCodeMessage 503 "Service Unavailable" "busy")

/-- Entries of a record with name `hw one` and status `approved`. -/
def entriesApproved : PyDict :=
  .cons "homework_name" (.str "hw one") (.cons "status" (.str "approved") .nil)

/-- Entries of a record with a name but no `status` key at all. -/
def entriesNoStatus : PyDict := .cons "homework_name" (.str "hw one") .nil

/-- Helper: if one list is written two ways as front-plus-tail, one tail
is a suffix of the other. -/
theorem tail_suffix_total {α : Type} (a b v w : List α) (h : a ++ v = b ++ w) :
    v <:+ w ∨ w <:+ v := by
  rcases le_total b.length a.length with hb | hb
  · left
    have hw : w = a.drop b.length ++ v := by
      have h1 : w = (b ++ w).drop b.length := (List.drop_left b w).symm
      rw [h1, ← h, List.drop_append_of_le_length hb]
    exact ⟨a.drop b.length, hw.symm⟩
  · right
    have hv : v = b.drop a.length ++ w := by
      have h1 : v = (a ++ v).drop a.length := (List.drop_left a v).symm
      rw [h1, h, List.drop_append_of_le_length hb]
    exact ⟨b.drop a.length, hv.symm⟩

/-- Helper: status messages with suffix-incomparable verdict texts differ,
whatever the interpolated names are. -/
theorem statusMessage_ne_of_verdicts (n₁ n₂ v₁ v₂ : String)
    (h₁ : ¬ (v₁.data <:+ v₂.data)) (h₂ : ¬ (v₂.data <:+ v₁.data)) :
    statusMessage n₁ v₁ ≠ statusMessage n₂ v₂ := by
  intro h
  have hd := congrArg String.data h
  simp only [statusMessage, String.data_append] at hd
  have hd' :
      ("Изменился статус проверки работы \"".data ++ n₁.data ++ "\". ".data)
          ++ v₁.data =
        ("Изменился статус проверки работы \"".data ++ n₂.data ++ "\". ".data)
          ++ v₂.data := by
    simpa [List.append_assoc] using hd
  rcases tail_suffix_total _ _ _ _ hd' with hs | hs
  · exact h₁ hs
  · exact h₂ hs

/-- Helper: inversion of a successful lookup in the fixed verdict table. -/
theorem lookup_verdicts_cases (s v : String)
    (h : HOMEWORK_VERDICTS.lookup s = some v) :
    (s = "approved" ∧ v = "Работа проверена: ревьюеру всё понравилось. Ура!") ∨
    (s = "reviewing" ∧ v = "Работа взята на проверку ревьюером.") ∨
    (s = "rejected" ∧ v = "Работа проверена: у ревьюера есть замечания.") := by
  by_cases h1 : s = "approved"
  · subst h1
    simp only [HOMEWORK_VERDICTS, List.lookup] at h
    exact Or.inl ⟨rfl, by simpa using h.symm⟩
  by_cases h2 : s = "reviewing"
  · subst h2
    simp only [HOMEWORK_VERDICTS, List.lookup] at h
    exact Or.inr (Or.inl ⟨rfl, by simpa using h.symm⟩)
  by_cases h3 : s = "rejected"
  · subst h3
    simp only [HOMEWORK_VERDICTS, List.lookup] at h
    exact Or.inr (Or.inr ⟨rfl, by simpa using h.symm⟩)
  · exfalso
    simp [HOMEWORK_VERDICTS, List.lookup,
      beq_eq_false_iff_ne.mpr h1, beq_eq_false_iff_ne.mpr h2,
      beq_eq_false_iff_ne.mpr h3] at h

/-- Helper: distinct verdict keys produce distinct status messages, for
any names. -/
theorem statusMessage_ne_of_status_ne (s₁ s₂ v₁ v₂ n₁ n₂ : String)
    (hl₁ : HOMEWORK_VERDICTS.lookup s₁ = some v₁)
    (hl₂ : HOMEWORK_VERDICTS.lookup s₂ = some v₂)
    (hne : s₁ ≠ s₂) :
    statusMessage n₁ v₁ ≠ statusMessage n₂ v₂ := by
  rcases lookup_verdicts_cases s₁ v₁ hl₁ with ⟨hs₁, hv₁⟩ | ⟨hs₁, hv₁⟩ | ⟨hs₁, hv₁⟩ <;>
    rcases lookup_verdicts_cases s₂ v₂ hl₂ with ⟨hs₂, hv₂⟩ | ⟨hs₂, hv₂⟩ | ⟨hs₂, hv₂⟩ <;>
      subst hv₁ <;> subst hv₂ <;>
        first
          | exact absurd (hs₁.trans hs₂.symm) hne
          | exact statusMessage_ne_of_verdicts n₁ n₂ _ _ (by decide) (by decide)

/-- Helper: the head of a concatenation comes from the first nonempty part. -/
theorem head_of_append_or {α : Type} (l₁ l₂ : List α) :
    (l₁ ++ l₂).head? = l₁.head?.or l₂.head? := by
  cases l₁ <;> simp

/-- Helper: a failure message never coincides with a status message (their
fixed leading characters differ). -/
theorem errorMessage_ne_statusMessage (es n v : String) :
    errorMessage es ≠ statusMessage n v := by
  intro h
  have hd := congrArg (fun s => String.data s) h
  simp only [errorMessage, statusMessage, String.data_append] at hd
  have hh := congrArg List.head? hd
  simp [List.cons_append] at hh

/-- Helper: the failure-message formatter is injective, so two failure
texts coincide exactly when the underlying `str(error)` values do. -/
theorem errorMessage_inj (a b : String) (h : errorMessage a = errorMessage b) :
    a = b := by
  have hd := congrArg String.data h
  simp only [errorMessage, String.data_append] at hd
  exact String.ext (List.append_cancel_left hd)

/-- Helper: a successful verdict lookup forces the status to be one of the
table's string keys. -/
theorem verdictsLookup_some_inv (v : PyVal) (verdict : String)
    (h : verdictsLookup v = some verdict) :
    ∃ s, v = .str s ∧ HOMEWORK_VERDICTS.lookup s = some verdict := by
  cases v with
  | str s => exact ⟨s, rfl, h⟩
  | none => simp [verdictsLookup] at h
  | bool b => simp [verdictsLookup] at h
  | int n => simp [verdictsLookup] at h
  | list xs => simp [verdictsLookup] at h
  | dict es => simp [verdictsLookup] at h

/-- Helper: when `d.get key` is a string, the underlying lookup found it. -/
theorem pyGet_str_lookup (entries : PyDict) (key s : String)
    (h : entries.get key = .str s) :
    entries.lookup key = some (.str s) := by
  unfold PyDict.get PyDict.getD at h
  cases hl : entries.lookup key with
  | none => rw [hl] at h; exact nomatch h
  | some x => rw [hl] at h; simp only [Option.getD_some] at h; rw [h]

/-- Helper: inversion of a successful `parse_status`: the record is a dict
with a truthy name and a verdict-keyed string status, and the message is
the template instantiated at them. -/
theorem parse_status_ok_inv (homework : PyVal) (message : String)
    (h : parse_status homework = .ok message) :
    ∃ entries s verdict,
      homework = .dict entries ∧
      pyTruthy (entries.get "homework_name") = true ∧
      entries.get "status" = .str s ∧
      HOMEWORK_VERDICTS.lookup s = some verdict ∧
      message = statusMessage (pyStr (entries.get "homework_name")) verdict := by
  cases homework with
  | none => simp [parse_status] at h
  | bool b => simp [parse_status] at h
  | int n => simp [parse_status] at h
  | str s => simp [parse_status] at h
  | list xs => simp [parse_status] at h
  | dict entries =>
  by_cases h1 : pyTruthy (PyDict.get entries "homework_name") = false
  · exact absurd h (by simp [parse_status, h1])
  have h1' : pyTruthy (PyDict.get entries "homework_name") = true := by
    revert h1; cases pyTruthy (PyDict.get entries "homework_name") <;> simp
  by_cases h2 : pyHashable (PyDict.get entries "status") = false
  · exact absurd h (by simp [parse_status, h1', h2])
  cases hv : verdictsLookup (PyDict.get entries "status") with
  | none => exact absurd h (by simp [parse_status, h1', h2, hv])
  | some verdict =>
    obtain ⟨s, hs, hls⟩ := verdictsLookup_some_inv _ _ hv
    refine ⟨entries, s, verdict, rfl, h1', hs, hls, ?_⟩
    have := h
    simp [parse_status, h1', h2, hv] at this
    exact this.symm

/-- Helper: inversion of a successful `check_response`: the response is a
dict whose `homeworks` entry is exactly the returned list. -/
theorem check_response_ok_inv (response : PyVal) (xs : PyList)
    (h : check_response response = .ok xs) :
    ∃ entries, response = .dict entries ∧
      entries.lookup "homeworks" = some (.list xs) := by
  cases response with
  | none => simp [check_response] at h
  | bool b => simp [check_response] at h
  | int n => simp [check_response] at h
  | str s => simp [check_response] at h
  | list ys => simp [check_response] at h
  | dict entries =>
  refine ⟨entries, rfl, ?_⟩
  cases hl : entries.lookup "homeworks" with
  | none => exact absurd h (by simp [check_response, hl])
  | some hv =>
    cases hv with
    | list ys =>
      have := h
      simp [check_response, hl] at this
      rw [this]
    | none => simp [check_response, hl] at h
    | bool b => simp [check_response, hl] at h
    | int n => simp [check_response, hl] at h
    | str s => simp [check_response, hl] at h
    | dict es => simp [check_response, hl] at h

/-- Helper: `send_message` confirms delivery exactly when the transport
delivered. -/
theorem send_message_fst_true (m : String) (o : Except String Unit) :
    (send_message m o).1 = true ↔ o = .ok () := by
  cases o with
  | ok u => cases u; simp [send_message]
  | error e => simp [send_message]

/-- Helper: exhaustive inversion of a non-raising `try` body: either the
homeworks list was empty or the status was unchanged (quiet cycle), or a
new status was seen but delivery failed, or a new status was seen and its
message was delivered, advancing the state. -/
theorem tryBody_ok_cases (env : Env) (st : LoopState) (inp : CycleInput)
    (st2 : LoopState) (att del : Option String)
    (h : tryBody env st inp = .ok (st2, att, del)) :
    (st2 = st ∧ att = Option.none ∧ del = Option.none) ∨
    (∃ message, st2 = st ∧ att = some message ∧ del = Option.none ∧
      (send_message message inp.delivery).1 = false) ∨
    (∃ response homework rest message hwStatus,
      get_api_answer env st.timestamp inp.transport = .ok response ∧
      check_response response = .ok (.cons homework rest) ∧
      parse_status homework = .ok message ∧
      pyGetItem homework "status" = .ok hwStatus ∧
      some hwStatus ≠ st.last_status ∧
      (send_message message inp.delivery).1 = true ∧
      att = some message ∧ del = some message ∧
      st2 = { timestamp := pyValGetD response "current_date" st.timestamp
              last_error := st.last_error
              last_status := some hwStatus }) := by
  unfold tryBody at h
  split at h
  · exact nomatch h
  rename_i response hga
  split at h
  · exact nomatch h
  · rename_i hcr
    left
    simp only [Except.ok.injEq, Prod.mk.injEq] at h
    exact ⟨h.1.symm, h.2.1.symm, h.2.2.symm⟩
  · rename_i homework rest hcr
    split at h
    · exact nomatch h
    rename_i message hps
    split at h
    · exact nomatch h
    rename_i hwStatus hgi
    split at h
    · rename_i hne
      split at h
      · rename_i hsend
        right; right
        simp only [Except.ok.injEq, Prod.mk.injEq] at h
        exact ⟨response, homework, rest, message, hwStatus, hga, hcr, hps, hgi, hne, hsend,
          h.2.1.symm, h.2.2.symm, h.1.symm⟩
      · rename_i hsend
        right; left
        simp only [Except.ok.injEq, Prod.mk.injEq] at h
        refine ⟨message, h.1.symm, h.2.1.symm, h.2.2.symm, ?_⟩
        revert hsend
        cases (send_message message inp.delivery).1 <;> simp
    · rename_i hne
      left
      simp only [Except.ok.injEq, Prod.mk.injEq] at h
      exact ⟨h.1.symm, h.2.1.symm, h.2.2.symm⟩

/-- Helper: on a non-raising cycle `mainStep` just repackages the `try`
body's result. -/
theorem mainStep_of_ok (env : Env) (st : LoopState) (inp : CycleInput)
    (st2 : LoopState) (att del : Option String)
    (h : tryBody env st inp = .ok (st2, att, del)) :
    mainStep env st inp =
      (st2, { attempted := att, delivered := del,
              sleepSeconds := RETRY_PERIOD }) := by
  simp [mainStep, h]

/-- Helper: exhaustive inversion of the `except` clause: a fresh failure
text is attempted, recorded only when delivered; a repeated failure text
is silently dropped. -/
theorem mainStep_error_cases (env : Env) (st : LoopState) (inp : CycleInput)
    (e : PyErr) (h : tryBody env st inp = .error e) :
    (some (strOfErr e) ≠ st.last_error ∧
      (send_message (errorMessage (strOfErr e)) inp.delivery).1 = true ∧
      mainStep env st inp =
        ({ st with last_error := some (strOfErr e) },
         { attempted := some (errorMessage (strOfErr e))
           delivered := some (errorMessage (strOfErr e))
           sleepSeconds := RETRY_PERIOD })) ∨
    (some (strOfErr e) ≠ st.last_error ∧
      (send_message (errorMessage (strOfErr e)) inp.delivery).1 = false ∧
      mainStep env st inp =
        (st, { attempted := some (errorMessage (strOfErr e))
               delivered := Option.none
               sleepSeconds := RETRY_PERIOD })) ∨
    (st.last_error = some (strOfErr e) ∧
      mainStep env st inp =
        (st, { attempted := Option.none
               delivered := Option.none
               sleepSeconds := RETRY_PERIOD })) := by
  by_cases hc : some (strOfErr e) ≠ st.last_error
  · cases hs : (send_message (errorMessage (strOfErr e)) inp.delivery).1 with
    | true =>
      left
      exact ⟨hc, rfl, by simp [mainStep, h, hc, hs]⟩
    | false =>
      right; left
      exact ⟨hc, rfl, by simp [mainStep, h, hc, hs]⟩
  · right; right
    have hc' : st.last_error = some (strOfErr e) := by
      by_contra hne
      exact hc (fun hx => hne hx.symm)
    exact ⟨hc', by simp [mainStep, h, hc]⟩

/-- Helper: the ghost invariant holds initially and is preserved by every
cycle, so it holds in every reachable state of the loop. -/
theorem deliveredInv_mainStep (env : Env) (st : LoopState) (ld : Option String)
    (inp : CycleInput) (hinv : DeliveredInv st ld) :
    DeliveredInv (mainStep env st inp).1
      (match (mainStep env st inp).2.delivered with
        | some m => some m
        | Option.none => ld) := by
  cases htb : tryBody env st inp with
  | ok r =>
    obtain ⟨st2, att, del⟩ := r
    rw [mainStep_of_ok env st inp st2 att del htb]
    rcases tryBody_ok_cases env st inp st2 att del htb with
      ⟨hst, hatt, hdel⟩ | ⟨message, hst, hatt, hdel, hsend⟩ |
      ⟨response, homework, rest, message, hwStatus, hga, hcr, hps, hgi,
        hne, hsend, hatt, hdel, hst⟩
    · subst hst; subst hdel; exact hinv
    · subst hst; subst hdel; exact hinv
    · subst hst; subst hatt; subst hdel
      intro d hd
      have hdm : d = message := by exact (Option.some.inj hd).symm
      rw [hdm]
      right
      obtain ⟨entries, s, verdict, hhw, hname, hstat, hls, hmsg⟩ :=
        parse_status_ok_inv homework message hps
      have hlk : entries.lookup "status" = some (.str s) :=
        pyGet_str_lookup entries "status" s hstat
      have hgi2 : pyGetItem homework "status" = .ok (.str s) := by
        rw [hhw]; simp [pyGetItem, hlk]
      have hws : hwStatus = .str s := Except.ok.inj (hgi.symm.trans hgi2)
      exact ⟨pyStr (entries.get "homework_name"), s, verdict, hls, by simp [hws], hmsg⟩
  | error e =>
    rcases mainStep_error_cases env st inp e htb with
      ⟨hc, hs, hm⟩ | ⟨hc, hs, hm⟩ | ⟨hc, hm⟩
    · rw [hm]
      intro d hd
      exact Or.inl ⟨strOfErr e, (Option.some.inj hd).symm⟩
    · rw [hm]; exact hinv
    · rw [hm]; exact hinv

/-- Helper: the ghost invariant holds at loop start. -/
theorem deliveredInv_init (t0 : Int) :
    DeliveredInv (initState t0) Option.none := by
  intro d hd
  exact nomatch hd

/-- C1: within one polling cycle from a reachable loop state, `timestamp`
is unchanged whenever the Telegram delivery fails, and if it changed at
all then the cycle delivered a message that differs from the most recently
delivered text, and the new value is exactly the response's `current_date`
(which was therefore present). -/
theorem C1_timestamp_advance (env : Env) (st : LoopState) (ld : Option String)
    (inp : CycleInput) (hinv : DeliveredInv st ld) :
    (∀ err, inp.delivery = .error err →
      (mainStep env st inp).1.timestamp = st.timestamp) ∧
    ((mainStep env st inp).1.timestamp ≠ st.timestamp →
      ∃ m response cd,
        (mainStep env st inp).2.delivered = some m ∧
        some m ≠ ld ∧
        get_api_answer env st.timestamp inp.transport = .ok response ∧
        pyValLookup response "current_date" = some cd ∧
        (mainStep env st inp).1.timestamp = cd) := by
  cases htb : tryBody env st inp with
  | error e =>
    have hts : (mainStep env st inp).1.timestamp = st.timestamp := by
      rcases mainStep_error_cases env st inp e htb with
        ⟨_, _, hm⟩ | ⟨_, _, hm⟩ | ⟨_, hm⟩ <;> rw [hm]
    exact ⟨fun _ _ => hts, fun hne => absurd hts hne⟩
  | ok r =>
    obtain ⟨st2, att, del⟩ := r
    rw [mainStep_of_ok env st inp st2 att del htb]
    rcases tryBody_ok_cases env st inp st2 att del htb with
      ⟨hst, hatt, hdel⟩ | ⟨message, hst, hatt, hdel, hsend⟩ |
      ⟨response, homework, rest, message, hwStatus, hga, hcr, hps, hgi,
        hne, hsend, hatt, hdel, hst⟩
    · subst hst
      exact ⟨fun _ _ => rfl, fun hne => absurd rfl hne⟩
    · subst hst
      exact ⟨fun _ _ => rfl, fun hne => absurd rfl hne⟩
    · constructor
      · intro err herr
        have hok : inp.delivery = .ok () := (send_message_fst_true _ _).mp hsend
        rw [hok] at herr
        exact nomatch herr
      · intro hts
        subst hst
        obtain ⟨entriesR, hrespd, _⟩ := check_response_ok_inv response _ hcr
        subst hrespd
        obtain ⟨entries, s, verdict, hhw, hname, hstat, hls, hmsg⟩ :=
          parse_status_ok_inv homework message hps
        have hlk : entries.lookup "status" = some (.str s) :=
          pyGet_str_lookup entries "status" s hstat
        have hgi2 : pyGetItem homework "status" = .ok (.str s) := by
          rw [hhw]; simp [pyGetItem, hlk]
        have hws : hwStatus = .str s := Except.ok.inj (hgi.symm.trans hgi2)
        cases hcd : entriesR.lookup "current_date" with
        | none =>
          exfalso
          apply hts
          simp [pyValGetD, PyDict.getD, hcd]
        | some cd =>
          subst hdel
          refine ⟨message, .dict entriesR, cd, rfl, ?_, hga, by simp [pyValLookup, hcd],
            by simp [pyValGetD, PyDict.getD, hcd]⟩
          cases hld : ld with
          | none => simp
          | some d =>
            rcases hinv d hld with ⟨es, hde⟩ | ⟨name0, s0, v0, hl0, hlast0, hd0⟩
            · subst hde
              intro hcontra
              have hmd : message = errorMessage es := by
                exact Option.some.inj hcontra
              exact errorMessage_ne_statusMessage es
                (pyStr (entries.get "homework_name")) verdict
                (hmd.symm.trans hmsg)
            · subst hd0
              have hsne : s ≠ s0 := by
                intro hss
                apply hne
                rw [hws, hss, hlast0]
              intro hcontra
              have hmd : message = statusMessage name0 v0 := Option.some.inj hcontra
              rw [hmsg] at hmd
              exact statusMessage_ne_of_status_ne s s0 verdict v0
                (pyStr (entries.get "homework_name")) name0 hls hl0 hsne hmd

/-- Helper: mapping the failure formatter over the recorded `str(error)`
hits a given failure text exactly when the recorded value matches. -/
theorem map_errorMessage_eq (le : Option String) (es : String) :
    Option.map errorMessage le = some (errorMessage es) ↔ le = some es := by
  cases le with
  | none => simp
  | some x =>
    constructor
    · intro h
      have h2 : errorMessage x = errorMessage es := by simpa using h
      exact congrArg some (errorMessage_inj x es h2)
    · intro h
      rw [Option.some.inj h]
      rfl

/-- C2 counterexample: after delivering `hw one / approved`, a cycle whose
first record is `hw two / approved` formats a text that differs from the
most recently delivered one, yet the loop attempts no notification,
because deduplication compares the record's `status` with `last_status`
rather than message texts. -/
theorem C2_counterexample :
    (stepWithDelivered envOk (initState 0, Option.none) (inpWith hwOne)).1.2 =
      some msgOne ∧
    parse_status hwTwo = .ok msgTwo ∧
    msgTwo ≠ msgOne ∧
    (stepWithDelivered envOk
      (stepWithDelivered envOk (initState 0, Option.none) (inpWith hwOne)).1
      (inpWith hwTwo)).2.attempted = Option.none :=
  ⟨by decide, by decide, by decide, by decide⟩

/-- C2 (amended): for a cycle whose response validates to a non-empty
list, a notification is attempted if and only if the first record's
`status` differs from the recorded `last_status`; on successful delivery
that status — not the delivered text — becomes the new deduplication
reference, and `timestamp` is set to `response.get('current_date',
timestamp)`. -/
theorem C2_amended_status_dedup (env : Env) (st : LoopState)
    (inp : CycleInput) (response homework : PyVal) (rest : PyList)
    (message : String) (hwStatus : PyVal)
    (h1 : get_api_answer env st.timestamp inp.transport = .ok response)
    (h2 : check_response response = .ok (.cons homework rest))
    (h3 : parse_status homework = .ok message)
    (h4 : pyGetItem homework "status" = .ok hwStatus) :
    ((mainStep env st inp).2.attempted = some message ↔
      some hwStatus ≠ st.last_status) ∧
    ((mainStep env st inp).2.attempted = Option.none ↔
      some hwStatus = st.last_status) ∧
    (some hwStatus ≠ st.last_status → inp.delivery = .ok () →
      (mainStep env st inp).1.last_status = some hwStatus ∧
      (mainStep env st inp).2.delivered = some message ∧
      (mainStep env st inp).1.timestamp =
        pyValGetD response "current_date" st.timestamp) := by
  have htb : tryBody env st inp =
      (if some hwStatus ≠ st.last_status then
        if (send_message message inp.delivery).1 = true then
          .ok ({ timestamp := pyValGetD response "current_date" st.timestamp
                 last_error := st.last_error
                 last_status := some hwStatus }, some message, some message)
        else .ok (st, some message, Option.none)
      else .ok (st, Option.none, Option.none)) := by
    simp only [tryBody, h1, h2, h3, h4]
  by_cases hne : some hwStatus ≠ st.last_status
  · rw [if_pos hne] at htb
    by_cases hsend : (send_message message inp.delivery).1 = true
    · rw [if_pos hsend] at htb
      rw [mainStep_of_ok env st inp _ _ _ htb]
      refine ⟨iff_of_true rfl hne, iff_of_false (by simp) hne, ?_⟩
      exact fun _ _ => ⟨rfl, rfl, rfl⟩
    · rw [if_neg hsend] at htb
      rw [mainStep_of_ok env st inp _ _ _ htb]
      refine ⟨iff_of_true rfl hne, iff_of_false (by simp) hne, ?_⟩
      intro _ hdel
      exact absurd ((send_message_fst_true message inp.delivery).mpr hdel) hsend
  · rw [if_neg hne] at htb
    rw [mainStep_of_ok env st inp _ _ _ htb]
    have heq : some hwStatus = st.last_status := not_ne_iff.mp hne
    refine ⟨iff_of_false (by simp) hne, iff_of_true rfl heq, ?_⟩
    exact fun hne2 _ => absurd heq hne2

/-- C2 (amended) witness: from the fresh state, the `hw one / approved`
cycle attempts its notification, since `approved` is a new status. -/
theorem C2_amended_status_dedup_witness :
    (mainStep envOk (initState 0) (inpWith hwOne)).2.attempted = some msgOne ↔
      some (PyVal.str "approved") ≠ (initState 0).last_status :=
  (C2_amended_status_dedup envOk (initState 0) (inpWith hwOne)
    (respWith hwOne) hwOne .nil msgOne (.str "approved")
    (by decide) (by decide) (by decide) (by decide)).1

/-- C3: a raised exception is caught and formatted; the failure text is
attempted exactly when it differs from the text of the recorded
`last_error`; a delivered failure text is recorded, `timestamp` and
`last_status` stay untouched, and a second consecutive cycle raising an
error with the same `str(error)` attempts nothing. -/
theorem C3_error_dedup (env : Env) (st : LoopState) (inp : CycleInput)
    (e : PyErr) (herr : tryBody env st inp = .error e) :
    ((mainStep env st inp).2.attempted = some (errorMessage (strOfErr e)) ↔
      Option.map errorMessage st.last_error ≠ some (errorMessage (strOfErr e))) ∧
    ((mainStep env st inp).2.attempted = Option.none ↔
      Option.map errorMessage st.last_error = some (errorMessage (strOfErr e))) ∧
    ((mainStep env st inp).2.delivered = some (errorMessage (strOfErr e)) →
      (mainStep env st inp).1.last_error = some (strOfErr e)) ∧
    ((mainStep env st inp).1.timestamp = st.timestamp ∧
      (mainStep env st inp).1.last_status = st.last_status) ∧
    (∀ inp2 e2,
      (mainStep env st inp).2.delivered = some (errorMessage (strOfErr e)) →
      tryBody env (mainStep env st inp).1 inp2 = .error e2 →
      strOfErr e2 = strOfErr e →
      (mainStep env (mainStep env st inp).1 inp2).2.attempted = Option.none) := by
  have hmap : Option.map errorMessage st.last_error ≠
        some (errorMessage (strOfErr e)) ↔ st.last_error ≠ some (strOfErr e) :=
    not_congr (map_errorMessage_eq st.last_error (strOfErr e))
  rcases mainStep_error_cases env st inp e herr with
    ⟨hc, hs, hm⟩ | ⟨hc, hs, hm⟩ | ⟨hc, hm⟩
  · rw [hm]
    refine ⟨iff_of_true rfl (hmap.mpr (fun hx => hc hx.symm)),
      iff_of_false (by simp) ((not_congr (map_errorMessage_eq _ _)).mpr
        (fun hx => hc hx.symm) : _), fun _ => rfl, ⟨rfl, rfl⟩, ?_⟩
    · intro inp2 e2 _ htb2 hse
      rcases mainStep_error_cases env
          ({ st with last_error := some (strOfErr e) }) inp2 e2 htb2 with
        ⟨hc2, _, _⟩ | ⟨hc2, _, _⟩ | ⟨_, hm2⟩
      · exact absurd (by simp [hse]) hc2
      · exact absurd (by simp [hse]) hc2
      · rw [hm2]
  · rw [hm]
    refine ⟨iff_of_true rfl (hmap.mpr (fun hx => hc hx.symm)),
      iff_of_false (by simp) (hmap.mpr (fun hx => hc hx.symm)), ?_, ⟨rfl, rfl⟩, ?_⟩
    · intro hdel; exact nomatch hdel
    · intro inp2 e2 hdel _ _; exact nomatch hdel
  · rw [hm]
    have hmeq : Option.map errorMessage st.last_error =
        some (errorMessage (strOfErr e)) := by rw [hc]; rfl
    refine ⟨iff_of_false (by simp) (fun hx => hx hmeq),
      iff_of_true rfl hmeq, ?_, ⟨rfl, rfl⟩, ?_⟩
    · intro hdel; exact nomatch hdel
    · intro inp2 e2 hdel _ _; exact nomatch hdel

/-- C3 witness: the HTTP 503 cycle from a fresh state attempts exactly the
formatted failure message (the recorded error is empty, so it is new). -/
theorem C3_error_dedup_witness :
    (mainStep envOk (initState 0) inpHttp503).2.attempted =
      some (errorMessage (strOfErr err503)) ↔
    Option.map errorMessage (initState 0).last_error ≠
      some (errorMessage (strOfErr err503)) :=
  (C3_error_dedup envOk (initState 0) inpHttp503 err503 (by decide)).1

/-- C4 counterexample: with all three variables absent, `check_tokens`
stops the program with `SystemExit` carrying a fixed message; the raised
error is not the typed `MissingEnvironmentVariableError` with its
enumerating message (that class is defined in exceptions.py but never
raised by homework.py). -/
theorem C4_counterexample :
    (check_tokens ⟨Option.none, Option.none, Option.none⟩).2 =
      .error (.systemExit "Программа принудительно остановлена.") ∧
    StartupError.systemExit "Программа принудительно остановлена." ≠
      mkMissingEnvironmentVariableError
        ["PRACTICUM_TOKEN", "TELEGRAM_TOKEN", "TELEGRAM_CHAT_ID"] :=
  ⟨by decide, by decide⟩

/-- C4 (amended): when any required variable is absent or empty, the
loader logs one critical line enumerating every missing name (not just the
first), and the program aborts via `SystemExit` with a fixed message
before any polling cycle runs; the enumeration contains exactly the falsy
variables. -/
theorem C4_amended_logged_enumeration (env : Env) (t0 : Int)
    (inputs : List CycleInput) (h : missingTokens env ≠ []) :
    (check_tokens env).1 =
      [⟨.critical, "Отсутствуют обязательные переменные окружения: "
          ++ String.intercalate ", " (missingTokens env)⟩] ∧
    mainRun env t0 inputs =
      .error (.systemExit "Программа принудительно остановлена.") ∧
    ("PRACTICUM_TOKEN" ∈ missingTokens env ↔
      optTruthy env.practicumToken = false) ∧
    ("TELEGRAM_TOKEN" ∈ missingTokens env ↔
      optTruthy env.telegramToken = false) ∧
    ("TELEGRAM_CHAT_ID" ∈ missingTokens env ↔
      optTruthy env.telegramChatId = false) := by
  have hct : check_tokens env =
      ([⟨.critical, "Отсутствуют обязательные переменные окружения: "
          ++ String.intercalate ", " (missingTokens env)⟩],
       .error (.systemExit "Программа принудительно остановлена.")) := by
    cases hm : missingTokens env with
    | nil => exact absurd hm h
    | cons a l => simp [check_tokens, hm]
  refine ⟨by rw [hct], by simp [mainRun, hct], ?_, ?_, ?_⟩ <;>
    cases h1 : optTruthy env.practicumToken <;>
      cases h2 : optTruthy env.telegramToken <;>
        cases h3 : optTruthy env.telegramChatId <;>
          simp [missingTokens, tokenTable, h1, h2, h3]

/-- C4 (amended) witness: with the API token absent and the bot token
empty, both names are enumerated in the critical log and the run aborts. -/
theorem C4_amended_logged_enumeration_witness :
    (check_tokens ⟨Option.none, some "", some "chat-id"⟩).1 =
      [⟨.critical, "Отсутствуют обязательные переменные окружения: "
          ++ String.intercalate ", "
              (missingTokens ⟨Option.none, some "", some "chat-id"⟩)⟩] ∧
    mainRun ⟨Option.none, some "", some "chat-id"⟩ 0 [] =
      .error (.systemExit "Программа принудительно остановлена.") ∧
    ("PRACTICUM_TOKEN" ∈ missingTokens ⟨Option.none, some "", some "chat-id"⟩ ↔
      optTruthy (Option.none : Option String) = false) ∧
    ("TELEGRAM_TOKEN" ∈ missingTokens ⟨Option.none, some "", some "chat-id"⟩ ↔
      optTruthy (some "") = false) ∧
    ("TELEGRAM_CHAT_ID" ∈ missingTokens ⟨Option.none, some "", some "chat-id"⟩ ↔
      optTruthy (some "chat-id") = false) :=
  C4_amended_logged_enumeration ⟨Option.none, some "", some "chat-id"⟩ 0 []
    (by decide)

/-- C5: `parse_status` raises `KeyError` on a missing or falsy
`homework_name`; with a truthy name and a hashable status outside the
fixed verdict table it raises `ValueError` naming that status; with a
status in the table it returns the fixed template interpolating the name
and the mapped verdict text. -/
theorem C5_parse_status_contract (entries : PyDict) :
    (pyTruthy (entries.get "homework_name") = false →
      parse_status (.dict entries) =
        .error (.keyError "Отсутствует ключ homework_name")) ∧
    (pyTruthy (entries.get "homework_name") = true →
      pyHashable (entries.get "status") = true →
      verdictsLookup (entries.get "status") = Option.none →
      parse_status (.dict entries) =
        .error (.valueError ("Неожиданный статус домашней работы: "
          ++ pyStr (entries.get "status")))) ∧
    (∀ verdict, pyTruthy (entries.get "homework_name") = true →
      verdictsLookup (entries.get "status") = some verdict →
      parse_status (.dict entries) =
        .ok (statusMessage (pyStr (entries.get "homework_name")) verdict)) := by
  refine ⟨fun hname => by simp [parse_status, hname], ?_, ?_⟩
  · intro hname hhash hverd
    simp [parse_status, hname, hhash, hverd]
  · intro verdict hname hverd
    obtain ⟨s, hs, _⟩ := verdictsLookup_some_inv _ _ hverd
    have hhash : pyHashable (entries.get "status") = true := by
      rw [hs]; rfl
    simp [parse_status, hname, hhash, hverd, statusMessage]

/-- C5 witness: the approved record formats to the fixed template with the
approved verdict text. -/
theorem C5_parse_status_contract_witness :
    parse_status (.dict entriesApproved) =
      .ok (statusMessage (pyStr (entriesApproved.get "homework_name"))
        "Работа проверена: ревьюеру всё понравилось. Ура!") :=
  (C5_parse_status_contract entriesApproved).2.2
    "Работа проверена: ревьюеру всё понравилось. Ура!" (by decide) (by decide)

/-- C6: `check_response` rejects a non-dict with a `TypeError`, a dict
lacking `homeworks` with a `KeyError`, and a non-list `homeworks` value
with a `TypeError`; the three raised errors are pairwise distinct; on
success the `homeworks` list is returned unchanged, including when it is
empty. -/
theorem C6_check_response_contract :
    (∀ v : PyVal, v.isDict = false →
      check_response v = .error (.typeError "Ответ API не является словарем")) ∧
    (∀ entries : PyDict, entries.lookup "homeworks" = Option.none →
      check_response (.dict entries) =
        .error (.keyError "Отсутствует обязательный ключ homeworks в ответе API")) ∧
    (∀ (entries : PyDict) (hv : PyVal),
      entries.lookup "homeworks" = some hv → (∀ xs, hv ≠ .list xs) →
      check_response (.dict entries) =
        .error (.typeError "homeworks не является списком")) ∧
    (∀ (entries : PyDict) (xs : PyList),
      entries.lookup "homeworks" = some (.list xs) →
      check_response (.dict entries) = .ok xs) ∧
    (PyErr.typeError "Ответ API не является словарем" ≠
        .keyError "Отсутствует обязательный ключ homeworks в ответе API" ∧
      PyErr.typeError "Ответ API не является словарем" ≠
        .typeError "homeworks не является списком" ∧
      PyErr.keyError "Отсутствует обязательный ключ homeworks в ответе API" ≠
        .typeError "homeworks не является списком") := by
  refine ⟨?_, ?_, ?_, ?_, by decide, by decide, by decide⟩
  · intro v hv
    cases v <;> simp [check_response]
    exact nomatch hv
  · intro entries hl
    simp [check_response, hl]
  · intro entries hv hl hne
    cases hv <;> simp [check_response, hl]
    case list xs => exact absurd rfl (hne xs)
  · intro entries xs hl
    simp [check_response, hl]

/-- C6 witness: a non-dict response is rejected with the dict `TypeError`,
and an empty homeworks list is returned unchanged. -/
theorem C6_check_response_contract_witness :
    check_response (.int 5) =
      .error (.typeError "Ответ API не является словарем") ∧
    check_response respEmptyHw = .ok .nil :=
  ⟨(C6_check_response_contract).1 (.int 5) (by decide),
   (C6_check_response_contract).2.2.2.1
     (.cons "homeworks" (.list .nil) .nil) .nil (by decide)⟩

/-- C7: a transport-level failure becomes a `ConnectionError` whose
message embeds the cause and whose `cause` field wraps it; a non-200
response becomes an `InvalidResponseCodeError` whose message carries the
status code, the reason phrase, and the raw body text. -/
theorem C7_get_api_answer_errors (env : Env) (timestamp : PyVal) :
    (∀ err, get_api_answer env timestamp (.requestException err) =
      .error (.connectionError (connectionErrorMessage env timestamp err) err)) ∧
    (∀ (statusCode : Int) (reason text : String) (json : Except PyErr PyVal),
      statusCode ≠ 200 →
      get_api_answer env timestamp (.httpResponse statusCode reason text json) =
        .error (.invalidResponseCodeError
          ("Неверный код ответа API: " ++ toString statusCode ++ ". "
            ++ "Причина: " ++ reason ++ ". "
            ++ "Текст: " ++ text))) := by
  constructor
  · intro err; rfl
  · intro statusCode reason text json hne
    simp [get_api_answer, invalidResponseCodeMessage, hne]

/-- C7 witness: the 503 response raises the invalid-response-code error
with 503, its reason phrase, and its body embedded in the message. -/
theorem C7_get_api_answer_errors_witness :
    get_api_answer envOk (.int 0)
        (.httpResponse 503 "Service Unavailable" "busy" (.ok PyVal.none)) =
      .error (.invalidResponseCodeError
        ("Неверный код ответа API: " ++ toString (503 : Int) ++ ". "
          ++ "Причина: " ++ "Service Unavailable" ++ ". "
          ++ "Текст: " ++ "busy")) :=
  (C7_get_api_answer_errors envOk (.int 0)).2 503 "Service Unavailable" "busy"
    (.ok PyVal.none) (by decide)

/-- C8: `send_message` never lets a delivery exception escape: an
exception is logged and turned into `false`, a delivered message is
acknowledged with `true`, and `true` is returned exactly on a confirmed
send. -/
theorem C8_send_message_contract :
    (∀ message err, send_message message (.error err) =
      (false, [⟨.error, "Ошибка при отправке сообщения: " ++ err⟩])) ∧
    (∀ message, send_message message (.ok ()) =
      (true, [⟨.debug, "Сообщение отправлено: " ++ message⟩])) ∧
    (∀ message outcome,
      (send_message message outcome).1 = true ↔ outcome = .ok ()) :=
  ⟨fun _ _ => rfl, fun _ => rfl, fun m o => send_message_fst_true m o⟩

/-- C8 witness: a raising transport yields `false` with the error log. -/
theorem C8_send_message_contract_witness :
    send_message "hello" (.error "boom") =
      (false, [⟨.error, "Ошибка при отправке сообщения: " ++ "boom"⟩]) :=
  (C8_send_message_contract).1 "hello" "boom"

/-- C9: a cycle whose response validates to an empty homeworks list
attempts no notification, leaves the whole loop state unchanged, and
proceeds to the fixed `RETRY_PERIOD` sleep. -/
theorem C9_empty_homeworks_frame (env : Env) (st : LoopState)
    (inp : CycleInput) (response : PyVal)
    (h1 : get_api_answer env st.timestamp inp.transport = .ok response)
    (h2 : check_response response = .ok .nil) :
    mainStep env st inp =
      (st, { attempted := Option.none
             delivered := Option.none
             sleepSeconds := RETRY_PERIOD }) := by
  have htb : tryBody env st inp = .ok (st, Option.none, Option.none) := by
    simp only [tryBody, h1, h2]
  exact mainStep_of_ok env st inp st Option.none Option.none htb

/-- C9 witness: the empty-homeworks cycle changes nothing and sleeps. -/
theorem C9_empty_homeworks_frame_witness :
    mainStep envOk (initState 7) inpEmptyHw =
      (initState 7, { attempted := Option.none
                      delivered := Option.none
                      sleepSeconds := RETRY_PERIOD }) :=
  C9_empty_homeworks_frame envOk (initState 7) inpEmptyHw respEmptyHw
    (by decide) (by decide)

/-- C10: a record with a truthy name but no `status` key at all makes
`parse_status` raise the unexpected-status `ValueError` with the status
rendered as `None` — not a `KeyError`. -/
theorem C10_missing_status_value_error (entries : PyDict)
    (hname : pyTruthy (entries.get "homework_name") = true)
    (hstatus : entries.lookup "status" = Option.none) :
    parse_status (.dict entries) =
      .error (.valueError "Неожиданный статус домашней работы: None") := by
  have hget : entries.get "status" = .none := by
    simp [PyDict.get, PyDict.getD, hstatus]
  have hmsg : ("Неожиданный статус домашней работы: None" : String) =
      "Неожиданный статус домашней работы: " ++ pyStr PyVal.none := by decide
  rw [hmsg]
  simp [parse_status, hname, hget, verdictsLookup, pyHashable]

/-- C10 witness: the statusless record is rejected with the `None`-naming
value error. -/
theorem C10_missing_status_value_error_witness :
    parse_status (.dict entriesNoStatus) =
      .error (.valueError "Неожиданный статус домашней работы: None") :=
  C10_missing_status_value_error entriesNoStatus (by decide) (by decide)

/-- C1 witness: from the fresh state with nothing delivered yet, the
`hw one / approved` cycle advances `timestamp`, so the cycle delivered a
new message and the new timestamp is the response's `current_date`. -/
theorem C1_timestamp_advance_witness :
    ∃ m response cd,
      (mainStep envOk (initState 0) (inpWith hwOne)).2.delivered = some m ∧
      some m ≠ (Option.none : Option String) ∧
      get_api_answer envOk (initState 0).timestamp (inpWith hwOne).transport =
        .ok response ∧
      pyValLookup response "current_date" = some cd ∧
      (mainStep envOk (initState 0) (inpWith hwOne)).1.timestamp = cd :=
  (C1_timestamp_advance envOk (initState 0) Option.none (inpWith hwOne)
    (deliveredInv_init 0)).2 (by decide)

end HomeworkBot
